import Mathlib

/-!
Shallow embedding of the LLM chat bot rig (`ikoalawala_rumchat_actor_rig.py`),
covering the rate-limited call wrapper, the seen-users store, the character
rotation timer, the message intake callback and the message processing loop.
Remote endpoints (OpenAI moderation and chat completion) are modelled by
oracles giving the outcome of each remote attempt; wall-clock time is a
natural number of seconds.
-/

namespace Rig

/-! ## Static configuration (class `Static.LLM`, source lines 40-85) -/

/-- Max number of tries before giving up on avoiding a rate limit
(`Static.LLM.rate_limit_max_tries`, line 51). -/
def rate_limit_max_tries : Nat := 4

/-- Time a character is in action in seconds
(`Static.LLM.character_season_length`, line 67). -/
def character_season_length : Nat := 600

/-- Prompts for each character the LLM will use
(`Static.LLM.character_prompts`, lines 60-64). -/
def character_prompts : List String :=
  ["You are the character Radshak.",
   "You are the character Meshack.",
   "You are the character Abednigo."]

/-! ## Remote call outcomes -/

/-- Outcome of one attempt of a remote operation, as seen by
`_run_rate_limited`: the call returns a value, raises
`openai.RateLimitError`, or raises any other exception. -/
inductive CallResult (α : Type) where
  | success (v : α)
  | rateLimit
  | failure
deriving DecidableEq

/-- Result of `_run_rate_limited` itself: it returns a Python value
(`none` models Python `None`, the "no result" case) or lets a
non-rate-limit exception propagate to its caller. -/
inductive WrapResult (α : Type) where
  | returned (v : Option α)
  | raised
deriving DecidableEq

/-- Retry loop of `_run_rate_limited` (`for _ in range(max_tries)`,
lines 184-195): attempt `i` is tried while fuel remains; a success or a
non-rate-limit exception ends the loop at once, a rate-limit outcome
consumes one try.  Returns the wrapper outcome, the value of
`permanent_rate_limit` afterwards (line 198 sets it when the tries run
out), and how many attempts of the wrapped operation were made. -/
def run_rate_limited_go {α : Type} (attempts : Nat → CallResult α) :
    Nat → Nat → WrapResult α × Bool × Nat
  | _, 0 => (WrapResult.returned none, true, 0)
  | i, fuel + 1 =>
    match attempts i with
    | CallResult.success v => (WrapResult.returned (some v), false, 1)
    | CallResult.rateLimit =>
      let r := run_rate_limited_go attempts (i + 1) fuel
      (r.1, r.2.1, r.2.2 + 1)
    | CallResult.failure => (WrapResult.raised, false, 1)

/-- Model of `LLMChatBot._run_rate_limited` (lines 174-198).  The input
`permanent_rate_limit` is the flag at entry (line 177 short-circuits when
it is already set); the output triple is as in `run_rate_limited_go`.
The sleep between tries (line 187) has no observable effect here. -/
def run_rate_limited {α : Type} (max_tries : Nat) (permanent_rate_limit : Bool)
    (attempts : Nat → CallResult α) : WrapResult α × Bool × Nat :=
  if permanent_rate_limit then (WrapResult.returned none, true, 0)
  else run_rate_limited_go attempts 0 max_tries

/-! ## The wrapped LLM call `_get_llm_message` (lines 250-269) -/

/-- Outcome of evaluating `response.choices[0].message.content`
(line 261): it yields a text, or raises; `RateLimitError` is re-raised
by line 266, any other exception makes `_get_llm_message` return `None`
(line 267). -/
inductive ExtractOutcome where
  | ok (text : String)
  | raises_rate_limit
  | raises_other
deriving DecidableEq

/-- Outcome of the remote `chat.completions.create` call (line 253),
which is outside the `try` block of `_get_llm_message`: it raises, or
returns a response whose content extraction then behaves as given. -/
inductive CreateOutcome where
  | raises_rate_limit
  | raises_other
  | returns (extraction : ExtractOutcome)
deriving DecidableEq

/-- Result of one call of `_get_llm_message`, as seen by the wrapper:
an uncaught `create` exception propagates unchanged; a caught extraction
failure other than a rate limit turns into the return value `None`
(modelled `success none`). -/
def get_llm_message_inner : CreateOutcome → CallResult (Option String)
  | CreateOutcome.raises_rate_limit => CallResult.rateLimit
  | CreateOutcome.raises_other => CallResult.failure
  | CreateOutcome.returns e =>
    match e with
    | ExtractOutcome.ok t => CallResult.success (some t)
    | ExtractOutcome.raises_rate_limit => CallResult.rateLimit
    | ExtractOutcome.raises_other => CallResult.success none

/-! ## Python `str.format` field resolution

Lines 166, 170 and 230 call `str.format` on templates whose replacement
fields are listed below by the root of their field names.  Per Python
semantics a root that is a decimal number selects a positional argument
and any other root selects a keyword argument; an unresolved root raises
`KeyError`.  -/

/-- Root of one replacement field of a template, already split into
Python's positional/keyword lookup classes. -/
inductive FieldRoot where
  | positional (i : Nat)
  | named (name : String)
deriving DecidableEq

/-- Resolution of one replacement-field root against `npositional`
positional arguments and the given keyword-argument names. -/
def field_root_resolves : FieldRoot → Nat → List String → Bool
  | FieldRoot.positional i, npositional, _ => decide (i < npositional)
  | FieldRoot.named n, _, kwargs => kwargs.contains n

/-- Whether a `str.format` call raises `KeyError`: some field root of
the template fails to resolve. -/
def str_format_key_error (roots : List FieldRoot) (npositional : Nat)
    (kwargs : List String) : Bool :=
  roots.any (fun r => ! field_root_resolves r npositional kwargs)

/-- Field roots of `Static.LLM.user_respond_prompt` (line 85): the
template holds `\x7bmessage.user.username\x7d`, `\x7bmessage.text\x7d`
and `\x7busername\x7d`; all three roots are identifiers, not numbers. -/
def user_respond_prompt_roots : List FieldRoot :=
  [FieldRoot.named ("message"), FieldRoot.named ("message"), FieldRoot.named ("username")]

/-- Field roots of `Static.LLM.rate_limited_response` (line 54): the
template holds `\x7bmessage.user.username\x7d`. -/
def rate_limited_response_roots : List FieldRoot := [FieldRoot.named ("message")]

/-- Field roots of `Static.LLM.user_welcome_prompt` (line 79): the
template holds `\x7busername\x7d` twice. -/
def user_welcome_prompt_roots : List FieldRoot :=
  [FieldRoot.named ("username"), FieldRoot.named ("username")]

/-! ## Python `str.startswith`, on the character sequences of strings -/

/-- Prefix test on character lists: the first list is the candidate
prefix. -/
def chars_start_with : List Char → List Char → Bool
  | [], _ => true
  | _ :: _, [] => false
  | p :: ps, c :: cs => p == c && chars_start_with ps cs

/-- Model of Python `s.startswith(pre)`. -/
def starts_with (s pre : String) : Bool := chars_start_with pre.data s.data

/-! ## Seen-users store (`remember_user`, lines 214-224) -/

/-- Model of `LLMChatBot.remember_user`: returns `true` and the unchanged
list when the username is already remembered, else returns `false` and
appends the username (the file append on lines 222-223 mirrors the
in-memory list and is not modelled separately). -/
def remember_user (remembered_users : List String) (username : String) :
    Bool × List String :=
  if username ∈ remembered_users then (true, remembered_users)
  else (false, remembered_users ++ [username])

/-! ## Character rotation timer (`current_character`, lines 236-239) -/

/-- Rotation formula with the configuration as parameters:
`floor((now mod (season_length * roster_size)) / season_length)`. -/
def active_index (now season_length roster_size : Nat) : Nat :=
  now % (season_length * roster_size) / season_length

/-- Model of the `current_character` property at the source constants:
`(time.time() % (season_length * len(character_prompts))) // season_length`. -/
def current_character (now : Nat) : Nat :=
  now % (character_season_length * character_prompts.length) / character_season_length

/-! ## Messages, processor state, oracles and observable events -/

/-- A chat message as the rig reads it: `message.user.username` and
`message.text`. -/
structure Message where
  username : String
  text : String
deriving DecidableEq

/-- Mutable state of the bot touched by the processor:
`self.remembered_users` and `self.permanent_rate_limit`. -/
structure ProcState where
  remembered_users : List String
  permanent_rate_limit : Bool
deriving DecidableEq

/-- Remote-endpoint oracle for processing one message: per-attempt
outcome of the moderation call (the flagged boolean of line 207), and
per-attempt outcomes of the `create` call for the welcome message and
for the mention reply. -/
structure MsgOracle where
  moderation_flagged : Nat → CallResult Bool
  greet_creates : Nat → CreateOutcome
  reply_creates : Nat → CreateOutcome

/-- Attempt outcomes of the wrapped `_is_clean` call (lines 204-208):
it returns `not flagged`, and lets any exception propagate. -/
def is_clean_attempts (o : MsgOracle) : Nat → CallResult Bool :=
  fun i =>
    match o.moderation_flagged i with
    | CallResult.success flagged => CallResult.success (! flagged)
    | CallResult.rateLimit => CallResult.rateLimit
    | CallResult.failure => CallResult.failure

/-- Observable outbound sends of the processor: the mention reply
(line 168), the rate-limited apology (line 170) and the welcome message
(line 234). -/
inductive Event where
  | sent_reply (text : String)
  | sent_rate_limited_notice
  | sent_welcome (text : String)
deriving DecidableEq

/-- How the body of the processing loop ends for one message: it falls
through to the next iteration, executes `return` (lines 157 and 162),
or an uncaught exception kills the thread. -/
inductive StepResult where
  | continue_loop
  | return_early
  | crashed
deriving DecidableEq

/-- Model of `greet_user` (lines 226-234) followed by the `return` of
line 162: format the welcome prompt (no `KeyError`: its only root,
`username`, is passed as a keyword on lines 229-230), get an LLM message
through the wrapper, and send it unless it is falsy (line 231). -/
def greet_user (st : ProcState) (creates : Nat → CreateOutcome) :
    ProcState × List Event × StepResult :=
  if str_format_key_error user_welcome_prompt_roots 0 ["username"] then
    (st, [], StepResult.crashed)
  else
    match run_rate_limited rate_limit_max_tries st.permanent_rate_limit
        (fun i => get_llm_message_inner (creates i)) with
    | (WrapResult.raised, p, _) =>
      (⟨st.remembered_users, p⟩, [], StepResult.crashed)
    | (WrapResult.returned r, p, _) =>
      match r.join with
      | none => (⟨st.remembered_users, p⟩, [], StepResult.return_early)
      | some t =>
        if t = "" then (⟨st.remembered_users, p⟩, [], StepResult.return_early)
        else (⟨st.remembered_users, p⟩, [Event.sent_welcome t], StepResult.return_early)

/-- Fallback of the mention branch when the reply is falsy (lines
169-170): if `permanent_rate_limit` is set, send the rate-limited
response — whose `format(message)` call raises `KeyError`, since its
root `message` is neither positional nor a keyword — else send nothing. -/
def mention_fallback (st : ProcState) : ProcState × List Event × StepResult :=
  if st.permanent_rate_limit then
    if str_format_key_error rate_limited_response_roots 1 [] then
      (st, [], StepResult.crashed)
    else (st, [Event.sent_rate_limited_notice], StepResult.continue_loop)
  else (st, [], StepResult.continue_loop)

/-- Mention branch (lines 165-170): first
`user_respond_prompt.format(message)` is evaluated (its roots `message`
and `username` are neither positional nor keywords, so it raises
`KeyError`); were it to succeed, the reply would be generated through
the wrapper and sent when truthy. -/
def handle_mention (st : ProcState) (creates : Nat → CreateOutcome) :
    ProcState × List Event × StepResult :=
  if str_format_key_error user_respond_prompt_roots 1 [] then
    (st, [], StepResult.crashed)
  else
    match run_rate_limited rate_limit_max_tries st.permanent_rate_limit
        (fun i => get_llm_message_inner (creates i)) with
    | (WrapResult.raised, p, _) =>
      (⟨st.remembered_users, p⟩, [], StepResult.crashed)
    | (WrapResult.returned r, p, _) =>
      match r.join with
      | some t =>
        if t = "" then mention_fallback ⟨st.remembered_users, p⟩
        else (⟨st.remembered_users, p⟩, [Event.sent_reply t], StepResult.continue_loop)
      | none => mention_fallback ⟨st.remembered_users, p⟩

/-- Prefix the mention check compares against
(`f"@\x7bself.actor.username\x7d"`, line 165). -/
def mention_of (actor_username : String) : String := "@" ++ actor_username

/-- Body of the processing loop for one dequeued message (lines
155-170): moderation check through the wrapper (`return` unless the
result is exactly `True`), then `remember_user` (greet and `return` for
a new user), then the mention branch for remembered users. -/
def process_message (actor_username : String) (st : ProcState) (m : Message)
    (o : MsgOracle) : ProcState × List Event × StepResult :=
  match run_rate_limited rate_limit_max_tries st.permanent_rate_limit
      (is_clean_attempts o) with
  | (WrapResult.raised, p, _) =>
    (⟨st.remembered_users, p⟩, [], StepResult.crashed)
  | (WrapResult.returned r, p, _) =>
    if r ≠ some true then (⟨st.remembered_users, p⟩, [], StepResult.return_early)
    else
      match remember_user st.remembered_users m.username with
      | (false, users2) => greet_user ⟨users2, p⟩ o.greet_creates
      | (true, users2) =>
        if starts_with m.text (mention_of actor_username) then
          handle_mention ⟨users2, p⟩ o.reply_creates
        else (⟨users2, p⟩, [], StepResult.continue_loop)

/-- How a run of `message_processing_loop` ends: the `while` condition
became false (line 146; the shutdown notice of line 172 prints), a
`return` inside the body ended the function, an uncaught exception
killed the thread, or the model ran out of fuel. -/
inductive LoopResult where
  | stopped
  | early_return
  | crashed
  | out_of_fuel
deriving DecidableEq

/-- Model of `LLMChatBot.message_processing_loop` (lines 143-172) over a
queue fixed in FIFO order, each message paired with its remote oracle.
`keep_running` gives the value of `actor.keep_running` at each iteration
check; an empty queue models `queue.Empty` (sleep and re-check).  The
run returns the final state, the processed messages in order with the
events each produced, and how the run ended. -/
def message_processing_loop (actor_username : String) (keep_running : Nat → Bool) :
    Nat → Nat → ProcState → List (Message × MsgOracle) →
    ProcState × List (Message × List Event) × LoopResult
  | 0, _, st, _ => (st, [], LoopResult.out_of_fuel)
  | fuel + 1, step, st, q =>
    if keep_running step && ! st.permanent_rate_limit then
      match q with
      | [] => message_processing_loop actor_username keep_running fuel (step + 1) st []
      | (m, o) :: rest =>
        match process_message actor_username st m o with
        | (st2, evs, StepResult.continue_loop) =>
          let r := message_processing_loop actor_username keep_running fuel (step + 1) st2 rest
          (r.1, (m, evs) :: r.2.1, r.2.2)
        | (st2, evs, StepResult.return_early) => (st2, [(m, evs)], LoopResult.early_return)
        | (st2, evs, StepResult.crashed) => (st2, [(m, evs)], LoopResult.crashed)
    else (st, [], LoopResult.stopped)

/-- Model of the registered message callback `action` (lines 135-141):
while `permanent_rate_limit` is set the callback returns without
enqueuing; otherwise the message is appended to the intake queue. -/
def action (permanent_rate_limit : Bool) (queue : List Message) (m : Message) :
    List Message :=
  if permanent_rate_limit then queue else queue ++ [m]

/-! ## Concrete data for the closed runs below -/

/-- Username the actor is logged in under. -/
def bot_name : String := "TheBot"

/-- Username of a chatter already in the seen-users store. -/
def usr_alice : String := "alice"

/-- Username of a brand-new chatter. -/
def usr_bob : String := "bob"

/-- Username of a second remembered chatter. -/
def usr_carol : String := "carol"

/-- Message text that does not mention the bot. -/
def txt_hello : String := "hello"

/-- Message text beginning with a mention of the bot. -/
def txt_mention : String := "@TheBot hello"

/-- Text the LLM oracle returns for a welcome prompt. -/
def welcome_text : String := "Welcome to the stream"

/-- Oracle whose moderation endpoint flags the input on every attempt. -/
def oracle_flagged : MsgOracle :=
  ⟨fun _ => CallResult.success true,
   fun _ => CreateOutcome.raises_other,
   fun _ => CreateOutcome.raises_other⟩

/-- Oracle whose moderation endpoint passes the input and whose LLM
endpoint answers with `welcome_text` on every attempt. -/
def oracle_clean : MsgOracle :=
  ⟨fun _ => CallResult.success false,
   fun _ => CreateOutcome.returns (ExtractOutcome.ok welcome_text),
   fun _ => CreateOutcome.returns (ExtractOutcome.ok welcome_text)⟩

/-- Wrapped call that raises a rate-limit signal on every attempt. -/
def attempts_all_rate_limit : Nat → CallResult Nat :=
  fun _ => CallResult.rateLimit

/-- Wrapped call that raises a rate-limit signal on its first three
attempts and then succeeds with the value 42. -/
def attempts_three_then_success : Nat → CallResult Nat :=
  fun j => if j < 3 then CallResult.rateLimit else CallResult.success 42

/-- Wrapped call that raises a non-rate-limit exception on every
attempt. -/
def attempts_all_failure : Nat → CallResult Nat :=
  fun _ => CallResult.failure

/-! ## Helper lemmas about the retry loop of the wrapper -/

/-- A run of the retry loop whose every remaining attempt is
rate-limited consumes all its tries, returns nothing and reports the
tries as exhausted. -/
theorem run_rate_limited_go_all_rate_limit {α : Type} (attempts : Nat → CallResult α) :
    ∀ (fuel i : Nat), (∀ j, j < fuel → attempts (i + j) = CallResult.rateLimit) →
    run_rate_limited_go attempts i fuel = (WrapResult.returned none, true, fuel) := by
  intro fuel
  induction fuel with
  | zero => intro i _; rfl
  | succ f ih =>
    intro i h
    have h0 : attempts i = CallResult.rateLimit := by simpa using h 0 (Nat.succ_pos f)
    have hrest : ∀ j, j < f → attempts (i + 1 + j) = CallResult.rateLimit := by
      intro j hj
      have hm := h (j + 1) (by omega)
      have e : i + (j + 1) = i + 1 + j := by omega
      rwa [e] at hm
    have hi := ih (i + 1) hrest
    simp [run_rate_limited_go, h0, hi]

/-- A run of the retry loop that is rate-limited on its first `k`
attempts and then succeeds returns the success value after `k + 1`
attempts without exhausting the tries. -/
theorem run_rate_limited_go_success {α : Type} (attempts : Nat → CallResult α) (v : α) :
    ∀ (k fuel i : Nat), k < fuel →
    (∀ j, j < k → attempts (i + j) = CallResult.rateLimit) →
    attempts (i + k) = CallResult.success v →
    run_rate_limited_go attempts i fuel = (WrapResult.returned (some v), false, k + 1) := by
  intro k
  induction k with
  | zero =>
    intro fuel i hk h hs
    cases fuel with
    | zero => exact absurd hk (by omega)
    | succ f =>
      have h0 : attempts i = CallResult.success v := by simpa using hs
      simp [run_rate_limited_go, h0]
  | succ k ih =>
    intro fuel i hk h hs
    cases fuel with
    | zero => exact absurd hk (by omega)
    | succ f =>
      have h0 : attempts i = CallResult.rateLimit := by simpa using h 0 (Nat.succ_pos k)
      have hrest : ∀ j, j < k → attempts (i + 1 + j) = CallResult.rateLimit := by
        intro j hj
        have hm := h (j + 1) (by omega)
        have e : i + (j + 1) = i + 1 + j := by omega
        rwa [e] at hm
      have hs2 : attempts (i + 1 + k) = CallResult.success v := by
        have e : i + (k + 1) = i + 1 + k := by omega
        rwa [e] at hs
      have hi := ih f (i + 1) (by omega) hrest hs2
      simp [run_rate_limited_go, h0, hi]

/-- A run of the retry loop that is rate-limited on its first `k`
attempts and then hits a non-rate-limit exception lets that exception
propagate after `k + 1` attempts without exhausting the tries. -/
theorem run_rate_limited_go_failure {α : Type} (attempts : Nat → CallResult α) :
    ∀ (k fuel i : Nat), k < fuel →
    (∀ j, j < k → attempts (i + j) = CallResult.rateLimit) →
    attempts (i + k) = CallResult.failure →
    run_rate_limited_go attempts i fuel = (WrapResult.raised, false, k + 1) := by
  intro k
  induction k with
  | zero =>
    intro fuel i hk h hs
    cases fuel with
    | zero => exact absurd hk (by omega)
    | succ f =>
      have h0 : attempts i = CallResult.failure := by simpa using hs
      simp [run_rate_limited_go, h0]
  | succ k ih =>
    intro fuel i hk h hs
    cases fuel with
    | zero => exact absurd hk (by omega)
    | succ f =>
      have h0 : attempts i = CallResult.rateLimit := by simpa using h 0 (Nat.succ_pos k)
      have hrest : ∀ j, j < k → attempts (i + 1 + j) = CallResult.rateLimit := by
        intro j hj
        have hm := h (j + 1) (by omega)
        have e : i + (j + 1) = i + 1 + j := by omega
        rwa [e] at hm
      have hs2 : attempts (i + 1 + k) = CallResult.failure := by
        have e : i + (k + 1) = i + 1 + k := by omega
        rwa [e] at hs
      have hi := ih f (i + 1) (by omega) hrest hs2
      simp [run_rate_limited_go, h0, hi]

/-- With `permanent_rate_limit` already set, the processing loop stops
at its very next condition check, processing nothing and emitting
nothing. -/
theorem loop_exhausted_stops (actor_username : String) (keep_running : Nat → Bool)
    (fuel step : Nat) (users : List String) (q : List (Message × MsgOracle)) :
    message_processing_loop actor_username keep_running (fuel + 1) step ⟨users, true⟩ q
      = (⟨users, true⟩, [], LoopResult.stopped) := by
  simp [message_processing_loop]

/-- The events `greet_user` can emit are nothing or one welcome
message. -/
theorem greet_user_events (st : ProcState) (creates : Nat → CreateOutcome) :
    (greet_user st creates).2.1 = [] ∨
    ∃ t, (greet_user st creates).2.1 = [Event.sent_welcome t] := by
  unfold greet_user
  have hfmt : str_format_key_error user_welcome_prompt_roots 0 ["username"] = false := by
    decide
  rw [hfmt]
  simp only [Bool.false_eq_true, if_false]
  rcases hw : run_rate_limited rate_limit_max_tries st.permanent_rate_limit
      (fun i => get_llm_message_inner (creates i)) with ⟨wr, p, n⟩
  cases wr with
  | raised => simp
  | returned r =>
    cases r with
    | none => simp
    | some v =>
      cases v with
      | none => simp
      | some t =>
        by_cases ht : t = "" <;> simp [ht]

/-! ## Claim theorems -/

/-- C1 (code bug): the claim says that after handling any one message —
flagged, new-user or mention case alike — the loop goes on to the next
queued message and stops only when the keep-running flag clears or
permanent exhaustion is set.  The code instead executes `return` after a
flagged message and after a new-user greeting, and raises `KeyError` in
`str.format` on the mention path: with `keep_running` constantly true
and `permanent_rate_limit` false, a flagged first message ends the run
with the second message unprocessed; a new-user first message does the
same; a single mention from a remembered user crashes the processor. -/
theorem claim1_loop_terminates_early :
    message_processing_loop bot_name (fun _ => true) 5 0 ⟨[usr_alice, usr_carol], false⟩
      [(⟨usr_alice, txt_hello⟩, oracle_flagged), (⟨usr_carol, txt_hello⟩, oracle_clean)]
      = (⟨[usr_alice, usr_carol], false⟩, [(⟨usr_alice, txt_hello⟩, [])],
         LoopResult.early_return) ∧
    message_processing_loop bot_name (fun _ => true) 5 0 ⟨[], false⟩
      [(⟨usr_bob, txt_hello⟩, oracle_clean), (⟨usr_bob, txt_hello⟩, oracle_clean)]
      = (⟨[usr_bob], false⟩, [(⟨usr_bob, txt_hello⟩, [Event.sent_welcome welcome_text])],
         LoopResult.early_return) ∧
    message_processing_loop bot_name (fun _ => true) 5 0 ⟨[usr_alice], false⟩
      [(⟨usr_alice, txt_mention⟩, oracle_clean)]
      = (⟨[usr_alice], false⟩, [(⟨usr_alice, txt_mention⟩, [])], LoopResult.crashed) :=
  ⟨by decide, by decide, by decide⟩

/-- C2: starting not exhausted, a wrapped call that is rate-limited on
every one of `max_tries` attempts makes the wrapper return no result
with `permanent_rate_limit` set, and a wrapped call that is rate-limited
on exactly `max_tries - 1` attempts and then succeeds makes the wrapper
return the success value with `permanent_rate_limit` still clear. -/
theorem claim2_wrapper_exhaustion_boundary {α : Type} (max_tries : Nat)
    (a1 a2 : Nat → CallResult α) (v : α)
    (hmt : 1 ≤ max_tries)
    (h1 : ∀ j, j < max_tries → a1 j = CallResult.rateLimit)
    (h2 : ∀ j, j < max_tries - 1 → a2 j = CallResult.rateLimit)
    (h3 : a2 (max_tries - 1) = CallResult.success v) :
    run_rate_limited max_tries false a1 = (WrapResult.returned none, true, max_tries) ∧
    run_rate_limited max_tries false a2 = (WrapResult.returned (some v), false, max_tries) := by
  constructor
  · have := run_rate_limited_go_all_rate_limit a1 max_tries 0
      (fun j hj => by simpa using h1 j hj)
    simpa [run_rate_limited] using this
  · have := run_rate_limited_go_success a2 v (max_tries - 1) max_tries 0 (by omega)
      (fun j hj => by simpa using h2 j hj)
      (by simpa using h3)
    have e : max_tries - 1 + 1 = max_tries := by omega
    rw [e] at this
    simpa [run_rate_limited] using this

/-- Witness for C2 at the configured bound of four tries. -/
theorem claim2_witness :
    run_rate_limited 4 false attempts_all_rate_limit
      = (WrapResult.returned none, true, 4) ∧
    run_rate_limited 4 false attempts_three_then_success
      = (WrapResult.returned (some 42), false, 4) :=
  claim2_wrapper_exhaustion_boundary 4 attempts_all_rate_limit attempts_three_then_success 42
    (by omega)
    (fun _ _ => rfl)
    (fun j hj => by
      unfold attempts_three_then_success
      rw [if_pos (show j < 3 by omega)])
    (by decide)

/-- C3 (refuted as stated): at a wrapped operation that raises a
non-rate-limit exception on its first attempt, the wrapper lets the
exception propagate after one attempt — its outcome is `raised`, not the
claimed return of no result. -/
theorem claim3_counterexample_other_failure_raises :
    run_rate_limited 4 false attempts_all_failure = (WrapResult.raised, false, 1) ∧
    (run_rate_limited 4 false attempts_all_failure).1 ≠ WrapResult.returned none :=
  ⟨by decide, by decide⟩

/-- C3 (amended): a wrapped operation that fails with a non-rate-limit
exception makes the wrapper stop retrying at once and propagate that
exception to its caller — it does not return no result — and
`permanent_rate_limit` is not set; separately, `_get_llm_message` turns
a non-rate-limit failure of its response extraction into a returned
`None`. -/
theorem claim3_amended_other_failure_propagates {α : Type} (max_tries k : Nat)
    (a : Nat → CallResult α)
    (hk : k < max_tries)
    (h1 : ∀ j, j < k → a j = CallResult.rateLimit)
    (h2 : a k = CallResult.failure) :
    run_rate_limited max_tries false a = (WrapResult.raised, false, k + 1) ∧
    get_llm_message_inner (CreateOutcome.returns ExtractOutcome.raises_other)
      = CallResult.success none := by
  refine ⟨?_, rfl⟩
  have := run_rate_limited_go_failure a k max_tries 0 hk
    (fun j hj => by simpa using h1 j hj)
    (by simpa using h2)
  simpa [run_rate_limited] using this

/-- Witness for the amended C3: an immediate non-rate-limit failure. -/
theorem claim3_witness :
    run_rate_limited 4 false attempts_all_failure = (WrapResult.raised, false, 0 + 1) ∧
    get_llm_message_inner (CreateOutcome.returns ExtractOutcome.raises_other)
      = CallResult.success none :=
  claim3_amended_other_failure_propagates 4 0 attempts_all_failure (by omega)
    (fun _ hj => absurd hj (by omega)) rfl

/-- C4: once `permanent_rate_limit` is true it stays true: the wrapper
short-circuits, returning no result with zero attempts of the wrapped
operation and the flag still set; processing any message from an
exhausted state changes nothing and the flag stays set; the processing
loop from an exhausted state stops with the flag still set. -/
theorem claim4_exhaustion_monotone {α : Type} (max_tries : Nat)
    (attempts : Nat → CallResult α) (actor_username : String)
    (keep_running : Nat → Bool) (fuel step : Nat) (users : List String)
    (q : List (Message × MsgOracle)) (m : Message) (o : MsgOracle) :
    run_rate_limited max_tries true attempts = (WrapResult.returned none, true, 0) ∧
    process_message actor_username ⟨users, true⟩ m o
      = (⟨users, true⟩, [], StepResult.return_early) ∧
    message_processing_loop actor_username keep_running (fuel + 1) step ⟨users, true⟩ q
      = (⟨users, true⟩, [], LoopResult.stopped) := by
  refine ⟨rfl, ?_, loop_exhausted_stops actor_username keep_running fuel step users q⟩
  simp [process_message, run_rate_limited]

/-- C5: for positive `season_length` and a roster of at least one
character, the active character index is
`floor((now mod (season_length * roster_size)) / season_length)`, which
equals `floor(now / season_length) mod roster_size`, and is periodic
with period `season_length * roster_size`; the code's
`current_character` is exactly this formula at the configured season
length and roster. -/
theorem claim5_rotation_formula (now season_length roster_size : Nat)
    (h1 : 0 < season_length) (h2 : 1 ≤ roster_size) :
    active_index now season_length roster_size = now / season_length % roster_size ∧
    active_index now season_length roster_size
      = active_index (now + season_length * roster_size) season_length roster_size ∧
    current_character now = active_index now character_season_length character_prompts.length := by
  refine ⟨Nat.mod_mul_right_div_self now season_length roster_size, ?_, rfl⟩
  unfold active_index
  rw [Nat.add_mod_right]

/-- Witness for C5 at the configured 600-second season and roster of
three characters. -/
theorem claim5_witness :
    active_index 1234 600 3 = 1234 / 600 % 3 ∧
    active_index 1234 600 3 = active_index (1234 + 600 * 3) 600 3 ∧
    current_character 1234 = active_index 1234 character_season_length character_prompts.length :=
  claim5_rotation_formula 1234 600 3 (by omega) (by omega)

/-- C6: a username not yet in the seen-users store is reported absent
and is present after being added; adding an already-present username
leaves the store unchanged; in either case membership of every other
username is unaffected. -/
theorem claim6_seen_users_store (users : List String) (u : String) :
    (u ∉ users → (remember_user users u).1 = false ∧ u ∈ (remember_user users u).2) ∧
    (u ∈ users → (remember_user users u).2 = users) ∧
    (∀ v, v ≠ u → (v ∈ (remember_user users u).2 ↔ v ∈ users)) := by
  unfold remember_user
  by_cases h : u ∈ users
  · simp [h]
  · refine ⟨fun _ => by simp [h], fun hu => absurd hu h, ?_⟩
    intro v hv
    simp [h, hv]

/-- Witness for C6: a new name and an existing one. -/
theorem claim6_witness :
    ((remember_user [usr_alice] usr_bob).1 = false ∧
      usr_bob ∈ (remember_user [usr_alice] usr_bob).2) ∧
    usr_alice ∈ (remember_user [usr_alice] usr_bob).2 :=
  ⟨(claim6_seen_users_store [usr_alice] usr_bob).1 (by decide),
   ((claim6_seen_users_store [usr_alice] usr_bob).2.2 usr_alice (by decide)).2 (by decide)⟩

/-- C7 (refuted as stated): after permanent exhaustion a mention does
not receive the fixed apology — with `permanent_rate_limit` already
true, a queued mention from a remembered user is not processed at all
(the loop stops, emitting nothing) and the callback does not even
enqueue an arriving message. -/
theorem claim7_counterexample_no_apology :
    message_processing_loop bot_name (fun _ => true) 5 0 ⟨[usr_alice], true⟩
      [(⟨usr_alice, txt_mention⟩, oracle_clean)]
      = (⟨[usr_alice], true⟩, [], LoopResult.stopped) ∧
    action true [] ⟨usr_alice, txt_mention⟩ = [] :=
  ⟨by decide, rfl⟩

/-- C7 (amended): after permanent rate-limit exhaustion the session
degrades to silence, with no automatic recovery: the processing loop
stops (leaving the flag set), every message arriving afterwards is
dropped by the callback without being enqueued, and no apology or any
other message is sent for subsequent mentions. -/
theorem claim7_amended_exhaustion_goes_silent (actor_username : String)
    (keep_running : Nat → Bool) (fuel step : Nat) (users : List String)
    (q : List (Message × MsgOracle)) (qm : List Message) (m : Message) :
    message_processing_loop actor_username keep_running (fuel + 1) step ⟨users, true⟩ q
      = (⟨users, true⟩, [], LoopResult.stopped) ∧
    action true qm m = qm :=
  ⟨loop_exhausted_stops actor_username keep_running fuel step users q, rfl⟩

/-- C8: a message whose moderation check comes back flagged — or for
which the wrapper yields no result — is dropped with no mutation of the
seen-users store and no outbound send. -/
theorem claim8_flagged_no_mutation_no_send (actor_username : String) (st : ProcState)
    (m : Message) (o : MsgOracle) (r : Option Bool) (p : Bool) (n : Nat)
    (hw : run_rate_limited rate_limit_max_tries st.permanent_rate_limit (is_clean_attempts o)
          = (WrapResult.returned r, p, n))
    (hr : r ≠ some true) :
    process_message actor_username st m o
      = (⟨st.remembered_users, p⟩, [], StepResult.return_early) := by
  unfold process_message
  rw [hw]
  simp [hr]

/-- Witness for C8: a flagged message from a remembered user. -/
theorem claim8_witness :
    process_message bot_name ⟨[usr_alice], false⟩ ⟨usr_alice, txt_hello⟩ oracle_flagged
      = (⟨[usr_alice], false⟩, [], StepResult.return_early) :=
  claim8_flagged_no_mutation_no_send bot_name ⟨[usr_alice], false⟩ ⟨usr_alice, txt_hello⟩
    oracle_flagged (some false) false 1 (by decide) (by decide)

/-- C9: a message whose username is not yet in the seen-users store
never produces a mention reply (nor the rate-limited notice) in the same
processing step, whatever its text: the step emits nothing or exactly
one welcome message. -/
theorem claim9_new_user_no_mention_reply (actor_username : String) (st : ProcState)
    (m : Message) (o : MsgOracle)
    (h : m.username ∉ st.remembered_users) :
    (process_message actor_username st m o).2.1 = [] ∨
    ∃ t, (process_message actor_username st m o).2.1 = [Event.sent_welcome t] := by
  unfold process_message
  rcases hw : run_rate_limited rate_limit_max_tries st.permanent_rate_limit
      (is_clean_attempts o) with ⟨wr, p, n⟩
  cases wr with
  | raised => simp
  | returned r =>
    by_cases hr : r = some true
    · subst hr
      have hru : remember_user st.remembered_users m.username
          = (false, st.remembered_users ++ [m.username]) := by
        simp [remember_user, h]
      simp only [ne_eq, not_true_eq_false, if_false, hru]
      exact greet_user_events _ _
    · simp [hr]

/-- Witness for C9: a brand-new user whose message text even begins with
a mention of the bot. -/
theorem claim9_witness :
    (process_message bot_name ⟨[], false⟩ ⟨usr_bob, txt_mention⟩ oracle_clean).2.1 = [] ∨
    ∃ t, (process_message bot_name ⟨[], false⟩ ⟨usr_bob, txt_mention⟩ oracle_clean).2.1
      = [Event.sent_welcome t] :=
  claim9_new_user_no_mention_reply bot_name ⟨[], false⟩ ⟨usr_bob, txt_mention⟩ oracle_clean
    (by decide)

/-- C10: while `permanent_rate_limit` is true the registered callback
returns without enqueuing, so a message arriving after exhaustion is
never placed on the intake queue — by contrast it is appended when the
flag is clear — and the processing loop in the exhausted state processes
nothing. -/
theorem claim10_callback_drops_when_exhausted (q : List Message) (m : Message)
    (actor_username : String) (keep_running : Nat → Bool) (fuel step : Nat)
    (users : List String) (oq : List (Message × MsgOracle)) :
    action true q m = q ∧
    action false q m = q ++ [m] ∧
    message_processing_loop actor_username keep_running (fuel + 1) step ⟨users, true⟩ oq
      = (⟨users, true⟩, [], LoopResult.stopped) :=
  ⟨rfl, rfl, loop_exhausted_stops actor_username keep_running fuel step users oq⟩

end Rig
